import Mathlib

/-
Verification of the ocpp-codec OCPP-JSON serializer against its natural-language
specification.

The development shallowly embeds the Python sources:
  ocpp_codec/serializer.py   (parse_field, parse_data, parse, serialize_field, serialize_fields)
  ocpp_codec/structure.py    (envelope dataclasses Call / CallResult / CallError)
  ocpp_codec/compat.py       (protocol-version dependent error selection)
  ocpp_codec/errors.py       (OCPP error classes and their ErrorCodeEnum codes)
  ocpp_codec/encoders.py     (DateTimeEncoder, EnumEncoder, OutgoingMessageDecimalEncoder)
  ocpp_codec/validators.py   (noop, max_length)
  tests/types.py, tests/messages.py (the concrete test schemas exercised by the claims)

Python JSON-ish runtime values are modelled by the inductive type Value; Python
exceptions either carry an OCPP error code (BaseOCPPError subclasses) or are plain
interpreter exceptions (TypeError, KeyError, ValueError, ...), modelled by Err.
CPython floats are modelled as exact rationals together with an explicit
round-to-nearest-even-at-53-bits function; datetimes as a record of calendar fields
plus an optional timezone.  External library behaviour (dateutil.parser.isoparse,
decimal.Decimal, float()) is modelled from its documented semantics, restricted to
the input shapes exercised here, and cross-checked against CPython.
-/

namespace OcppCodec

/-- The Python timezone objects that can appear on a parsed datetime:
dateutil/pytz UTC (whose tzname() is the string UTC), or a fixed offset in
minutes built by dateutil as tzoffset(None, seconds) (whose tzname() is None).
dateutil.parser.isoparse converts offsets of zero to UTC. -/
inductive Tz where
  | utc
  | offsetMin (m : Int)
deriving DecidableEq

/-- Model of datetime.datetime: calendar fields plus an optional tzinfo. -/
structure PyDateTime where
  year : Nat
  month : Nat
  day : Nat
  hour : Nat
  minute : Nat
  second : Nat
  microsecond : Nat
  tz : Option Tz
deriving DecidableEq

/-- Python runtime values flowing through the codec: the JSON-compatible values
(None, bool, int, float, str, list, dict) plus the richer Python objects the codec
manipulates (enum members, datetimes).  Floats are exact rationals (every IEEE-754
double is a rational); dicts are association lists with distinct keys; an enum
member carries its class name, member name and underlying value.  A parsed
dataclass instance is modelled as vObj listing every dataclass field in order. -/
inductive Value where
  | vNull
  | vBool (b : Bool)
  | vInt (n : Int)
  | vFloat (q : ℚ)
  | vStr (s : String)
  | vList (xs : List Value)
  | vObj (kvs : List (String × Value))
  | vEnum (cls : String) (member : String) (val : Value)
  | vDateTime (dt : PyDateTime)

/-- The Python classes a dataclass field can be annotated with, other than the
OCPP-specific ones: str, int, float, bool and dict. -/
inductive Prim where
  | pStr
  | pInt
  | pFloat
  | pBool
  | pDict
deriving DecidableEq

/-- ocpp_codec/types.py ErrorCodeEnum: every OCPP error code of both protocol
generations. -/
inductive ErrorCode where
  | NotImplemented
  | NotSupported
  | InternalError
  | ProtocolError
  | SecurityError
  | FormationViolation
  | PropertyConstraintViolation
  | OccurenceConstraintViolation
  | TypeConstraintViolation
  | GenericError
  | FormatViolation
  | MessageTypeNotSupported
  | RpcFrameworkError
deriving DecidableEq

/-- Tags identifying the distinct human-readable messages raised by the sources
(the original f-string text is given in the comments). -/
inductive EMsg where
  | messageMustBeNonEmptyList          -- serializer.py: "Message must be a non-empty list"
  | messageTypeNotSupported            -- serializer.py: "Message type ... not supported"
  | tooManyArguments                   -- serializer.py: "Too many arguments provided"
  | missingOrUndefinedRequiredFields   -- serializer.py: "Missing or undefined/empty required fields"
  | valueNotOfExpectedType             -- serializer.py parse_field: "Value ... is not of type ..."
  | fieldIsNotAList                    -- serializer.py parse_data: "Field ... is not a list"
  | itemNotOfExpectedType              -- serializer.py serialize_field: "Item ... is not of type ..."
  | undefinedRequiredField             -- serializer.py serialize_fields: "Undefined required field ..."
  | actionNotImplemented               -- serializer.py parse: "Action ... is not implemented"
  | inputIsTooLong                     -- validators.py max_length: "Input is too long"
  | dateInputNotFormattedAppropriately -- encoders.py: "Date input isn't formatted appropriately"
  | dateInputMustUseUTC                -- encoders.py: "Date input must use the UTC timezone, not ..."
  | inputNotADatetimeInstance          -- encoders.py: "Input ... is not a datetime.datetime instance"
  | notAValidEnumEntry                 -- encoders.py: "Input ... is not a valid entry of enum ..."
  | inputNotAnEnumInstance             -- encoders.py: "Input ... is not an instance of ..."
  | inputCannotBeCastToFloat           -- encoders.py: "Input ... cannot be cast to float"
  | couldNotBeTruncated                -- encoders.py: "Input ... could not be truncated to six decimal places"
deriving DecidableEq

/-- A raised BaseOCPPError: its ErrorCodeEnum code (errors.py resolves it from the
class name or __error_code_name__), its message, and the field detail that
serializer._run_validator injects with details.setdefault of the field name. -/
structure OCPPError where
  code : ErrorCode
  msg : EMsg
  fieldName : Option String := none
deriving DecidableEq

/-- Plain Python interpreter exceptions that the codec code can raise and that are
not BaseOCPPError instances (so the serializer's except clauses do not catch them). -/
inductive PyExcKind where
  | typeError
  | keyError
  | valueError
  | attributeError
  | recursionError
deriving DecidableEq

/-- An exception escaping a serializer-internal helper: either an OCPP error or a
plain Python exception. -/
inductive Err where
  | ocpp (e : OCPPError)
  | py (k : PyExcKind)

/-- A Python enum class: its name and its members (member name, member value), in
declaration order.  AutoNameEnum classes have string values equal to the member
names. -/
structure EnumCls where
  ename : String
  members : List (String × Value)

/-- validators.py validator functions that appear in the metadata of the schemas
embedded here: noop (the serializer default) and the partially applied max_length. -/
inductive Validator where
  | noop
  | maxLength (n : Nat)

/-- encoders.py encoder instances (the classes in validators.py are identical
copies of these). -/
inductive Encoder where
  | enumEnc (cls : EnumCls)
  | dateTimeEnc
  | outgoingDecimalEnc

/-- A Python object stored in a dataclass field's metadata mapping: a bare
validator function, a list of validator functions, or an encoder instance.
encoderInst marks an instance of an encoders.py class; vEncoderInst an instance
of the duplicate classes defined at the bottom of validators.py (only the latter
satisfies isinstance(x, validators.BaseEncoder)). -/
inductive MetaVal where
  | fn (v : Validator)
  | fnList (vs : List Validator)
  | encoderInst (e : Encoder)
  | vEncoderInst (e : Encoder)

/-- The metadata mapping attached to a dataclass field, recording which of the
keys used by this codebase are present.  serializer._run_validator reads only the
key validator; the field declarations in structure.py, v16/, v20/ and tests/ use
the keys validators and encoder. -/
structure Metadata where
  validator : Option MetaVal := none
  validators : Option MetaVal := none
  encoder : Option MetaVal := none

/-- A dataclasses.Field, generic in the representation of its declared type:
name, type annotation, metadata, default (none models dataclasses.MISSING,
some Value.vNull models default=None), init flag, and the value of a same-named
plain class attribute if one is assigned (structure.py assigns the fixed
MessageTypeEnum member over the init=False messageTypeId field). -/
structure SFieldG (τ : Type) where
  name : String
  ftype : τ
  fmeta : Metadata := {}
  fdefault : Option Value := none
  finit : Bool := true
  classAttr : Option Value := none

/-- The declared type of a dataclass field in this codebase: a plain Python type,
a types.SimpleType subclass (a dataclass with a single value field), a
types.ComplexType dataclass (or any other plain dataclass, e.g. the envelope and
payload classes), or typing.List of an element type. -/
inductive FieldType where
  | prim (p : Prim)
  | simple (inner : SFieldG FieldType)
  | struct (fields : List (SFieldG FieldType))
  | flist (elem : FieldType)

/-- A concrete dataclasses.Field of this codebase. -/
abbrev SField := SFieldG FieldType

----------------------------------------------------------------------------
-- Computable rational arithmetic
----------------------------------------------------------------------------

-- The Batteries arithmetic on ℚ is deliberately irreducible, which would block
-- kernel evaluation of the concrete executions below; the following helpers
-- implement the same operations through mkRat, Rat.blt and the num/den
-- projections, which all reduce.

/-- The rational value of an integer. -/
def qOfInt (n : Int) : ℚ := Rat.divInt n 1

/-- Zero as a rational. -/
def qZero : ℚ := qOfInt 0

/-- Product of two rationals. -/
def qMul (a b : ℚ) : ℚ := mkRat (a.num * b.num) (a.den * b.den)

/-- Difference of two rationals. -/
def qSub (a b : ℚ) : ℚ := mkRat (a.num * (b.den : Int) - b.num * (a.den : Int)) (a.den * b.den)

/-- Negation of a rational. -/
def qNeg (a : ℚ) : ℚ := mkRat (-a.num) a.den

/-- Strict comparison of rationals, as a Bool. -/
def qLtB (a b : ℚ) : Bool := Rat.blt a b

/-- Non-strict comparison of rationals, as a Bool. -/
def qLeB (a b : ℚ) : Bool := !Rat.blt b a

/-- Equality of rationals, as a Bool (rationals are stored reduced, so
structural comparison of numerator and denominator decides equality). -/
def qEqB (a b : ℚ) : Bool := a.num == b.num && a.den == b.den

----------------------------------------------------------------------------
-- Python semantic helpers
----------------------------------------------------------------------------

/-- Python len(): defined for str (number of characters), list and dict;
none models the TypeError raised for other arguments. -/
def pyLen : Value → Option Nat
  | .vStr s => some s.length
  | .vList xs => some xs.length
  | .vObj kvs => some kvs.length
  | _ => none

/-- Python truthiness test bool(v), as used by the expression not value. -/
def pyFalsy : Value → Bool
  | .vNull => true
  | .vBool b => !b
  | .vInt n => n == 0
  | .vFloat q => q.num == 0
  | .vStr s => s.isEmpty
  | .vList xs => xs.isEmpty
  | .vObj kvs => kvs.isEmpty
  | .vEnum _ _ _ => false
  | .vDateTime _ => false

/-- The numeric value of a Python object for cross-type numeric equality
(bool is a subtype of int: True == 1, False == 0). -/
def pyNum : Value → Option ℚ
  | .vInt n => some (qOfInt n)
  | .vBool b => some (qOfInt (if b then 1 else 0))
  | .vFloat q => some q
  | _ => none

/-- Python == as used for dict-key and enum-value lookup in this codebase:
numeric values compare across int/bool/float, strings compare by content. -/
def pyKeyEq (a b : Value) : Bool :=
  match pyNum a, pyNum b with
  | some x, some y => qEqB x y
  | _, _ =>
    match a, b with
    | .vStr s, .vStr t => s == t
    | _, _ => false

/-- Python isinstance(data, cls) for the plain classes used as field types.
A bool is an instance of int (bool subclasses int); an int is not an instance
of float. -/
def pyIsInstance : Value → Prim → Bool
  | .vStr _, .pStr => true
  | .vInt _, .pInt => true
  | .vBool _, .pInt => true
  | .vBool _, .pBool => true
  | .vFloat _, .pFloat => true
  | .vObj _, .pDict => true
  | _, _ => false

/-- Lookup of a key in a dict modelled as an association list. -/
def objGet : List (String × Value) → String → Option Value
  | [], _ => none
  | (k, v) :: rest, n => if k = n then some v else objGet rest n

/-- Python getattr of a dataclass-instance field, the instance being modelled as
a vObj of all its fields.  Unknown attribute access cannot occur on the paths
modelled here; the vNull fallback keeps the function total. -/
def getattrV (v : Value) (n : String) : Value :=
  match v with
  | .vObj kvs => (objGet kvs n).getD .vNull
  | _ => .vNull

/-- Replace an attribute of a dataclass instance (used for ocpp_msg.payload = ...). -/
def setattrV (v : Value) (n : String) (newVal : Value) : Value :=
  match v with
  | .vObj kvs => .vObj (kvs.map (fun kv => if kv.1 = n then (kv.1, newVal) else kv))
  | _ => v

/-- True iff the value is a Python list (isinstance(v, list)). -/
def Value.isListV : Value → Bool
  | .vList _ => true
  | _ => false

/-- Python hashability of the values in scope: lists and dicts are unhashable
(hashing one raises TypeError), while None, bool, int, float, str, enum members
and datetimes are hashable. -/
def pyHashable : Value → Bool
  | .vList _ => false
  | .vObj _ => false
  | _ => true

/-- True iff the value is a datetime.datetime instance. -/
def Value.isDateTimeV : Value → Bool
  | .vDateTime _ => true
  | _ => false

----------------------------------------------------------------------------
-- Field-type introspection (serializer.py 23-91)
----------------------------------------------------------------------------

/-- serializer.py 23: a field is optional iff field.default is None. -/
def _is_optional (f : SField) : Bool :=
  match f.fdefault with
  | some .vNull => true
  | _ => false

/-- serializer.py 58: _is_list holds of the typing generics used here, which are
all typing.List applications. -/
def _is_list : FieldType → Bool
  | .flist _ => true
  | _ => false

/-- serializer.py 62: _is_generic holds of typing generic aliases; in this
codebase those are exactly the typing.List annotations. -/
def _is_generic : FieldType → Bool
  | .flist _ => true
  | _ => false

/-- issubclass(t, types.SimpleType) for a field type that is a class. -/
def _is_simple : FieldType → Bool
  | .simple _ => true
  | _ => false

/-- issubclass(t, types.ComplexType) for a field type that is a class. -/
def _is_complex : FieldType → Bool
  | .struct _ => true
  | _ => false

/-- dataclasses.is_dataclass: SimpleType and ComplexType subclasses (and the
envelope/payload classes) are dataclasses. -/
def _is_dataclass : FieldType → Bool
  | .simple _ => true
  | .struct _ => true
  | _ => false

/-- dataclasses.fields of a dataclass field type: a SimpleType contributes its
single value field, a plain dataclass its declared fields. -/
def dcFields : FieldType → List SField
  | .simple inner => [inner]
  | .struct fs => fs
  | _ => []

/-- serializer.py 27: a value is undefined if it is None, or falsy while the
field's declared type is a List. -/
def _is_undefined (f : SField) (v : Value) : Bool :=
  (match v with | .vNull => true | _ => false) || (_is_list f.ftype && pyFalsy v)

/-- serializer.py 32: the fields without a None default. -/
def required_fields (fs : List SField) : List SField :=
  fs.filter (fun f => !_is_optional f)

/-- serializer.py 68: replace a List field's type by its element type. -/
def _unpack_field (f : SField) : SField :=
  match f.ftype with
  | .flist elem => { f with ftype := elem }
  | _ => f

/-- serializer.py 81: replace a SimpleType field by a copy of its single value
field, renamed to the outer field's name. -/
def _extract_base_type (f : SField) : SField :=
  match f.ftype with
  | .simple inner => { inner with name := f.name }
  | _ => f

----------------------------------------------------------------------------
-- IEEE-754 double model (exact rationals + rounding)
----------------------------------------------------------------------------

/-- 2 ^ k over the rationals, for an integer exponent. -/
def ratPow2 : Int → ℚ
  | .ofNat k => mkRat ((2 ^ k : Nat) : Int) 1
  | .negSucc k => mkRat 1 (2 ^ (k + 1))

/-- 10 ^ k over the rationals, for an integer exponent. -/
def ratPow10 : Int → ℚ
  | .ofNat k => mkRat ((10 ^ k : Nat) : Int) 1
  | .negSucc k => mkRat 1 (10 ^ (k + 1))

/-- Floor of a rational as an integer (fdiv rounds toward negative infinity). -/
def ratFloorZ (q : ℚ) : Int :=
  Int.fdiv q.num (q.den : Int)

/-- Truncation of a rational toward zero. -/
def ratTruncZ (q : ℚ) : Int :=
  if qLtB q qZero then -(ratFloorZ (qNeg q)) else ratFloorZ q

/-- Round a nonnegative rational to the nearest integer, ties to even. -/
def roundHalfEven (q : ℚ) : Int :=
  let m := ratFloorZ q
  let frac := qSub q (qOfInt m)
  let half : ℚ := mkRat 1 2
  if qLtB half frac then m + 1
  else if qLtB frac half then m
  else if m % 2 = 0 then m else m + 1

/-- Fuelled upward scan: the largest n reachable with 2 ^ (n + 1) ≤ a. -/
def log2Up : Nat → ℚ → Int → Int
  | 0, _, n => n
  | fuel + 1, a, n => if qLeB (ratPow2 (n + 1)) a then log2Up fuel a (n + 1) else n

/-- Fuelled downward scan: the largest n with 2 ^ n ≤ a, scanning down. -/
def log2Down : Nat → ℚ → Int → Int
  | 0, _, n => n
  | fuel + 1, a, n => if qLtB a (ratPow2 n) then log2Down fuel a (n - 1) else n

/-- Floor of the base-2 logarithm of a positive rational.  The fuel of 4400
covers every magnitude representable in (or overflowing from) IEEE-754 binary64,
which is the range CPython floats live in. -/
def qlog2floor (a : ℚ) : Int :=
  log2Up 4400 a (log2Down 4400 a 0)

/-- Round an exact rational to the nearest IEEE-754 binary64 value (53-bit
significand, round-to-nearest ties-to-even), as an exact rational.  Overflow to
infinity and subnormal underflow are outside the range used by the claims and
are not modelled. -/
def roundDouble (q : ℚ) : ℚ :=
  if qEqB q qZero then qZero
  else
    let a := if qLtB q qZero then qNeg q else q
    let n := qlog2floor a
    let scaled := qMul a (ratPow2 (52 - n))
    let m := roundHalfEven scaled
    let r := qMul (qOfInt m) (ratPow2 (n - 52))
    if qLtB q qZero then qNeg r else r

----------------------------------------------------------------------------
-- Python float() literal parsing (for the decimal encoder)
----------------------------------------------------------------------------

/-- Read a run of decimal digits from a character list, returning the
accumulated value, the number of digits read and the rest. -/
def readDigitRun : List Char → Nat → Nat → (Nat × Nat × List Char)
  | [], acc, cnt => (acc, cnt, [])
  | c :: rest, acc, cnt =>
    if c.isDigit then readDigitRun rest (acc * 10 + (c.toNat - '0'.toNat)) (cnt + 1)
    else (acc, cnt, c :: rest)

/-- Parse the exponent suffix of a float literal: e or E, optional sign, digits. -/
def parseFloatExp : List Char → Option Int
  | [] => some 0
  | c :: rest =>
    if c = 'e' || c = 'E' then
      match rest with
      | '+' :: rest2 =>
        match readDigitRun rest2 0 0 with
        | (v, cnt, []) => if cnt = 0 then none else some (v : Int)
        | _ => none
      | '-' :: rest2 =>
        match readDigitRun rest2 0 0 with
        | (v, cnt, []) => if cnt = 0 then none else some (-(v : Int))
        | _ => none
      | _ =>
        match readDigitRun rest 0 0 with
        | (v, cnt, []) => if cnt = 0 then none else some (v : Int)
        | _ => none
    else none

/-- Parse the unsigned part of a float literal: digits [. digits] [exp] or
. digits [exp], yielding the exact rational value. -/
def parseFloatBody (cs : List Char) : Option ℚ :=
  match readDigitRun cs 0 0 with
  | (ip, ipCnt, rest) =>
    match rest with
    | '.' :: rest2 =>
      match readDigitRun rest2 0 0 with
      | (fp, fpCnt, rest3) =>
        if ipCnt = 0 && fpCnt = 0 then none
        else
          match parseFloatExp rest3 with
          | some e =>
            some (qMul (mkRat ((ip * 10 ^ fpCnt + fp : Nat) : Int) (10 ^ fpCnt)) (ratPow10 e))
          | none => none
    | _ =>
      if ipCnt = 0 then none
      else
        match parseFloatExp rest with
        | some e => some (qMul (qOfInt (ip : Int)) (ratPow10 e))
        | none => none

/-- The exact rational value denoted by a Python float() string argument, or
none when float() raises ValueError.  Modelled for finite decimal literals with
optional sign, fraction and exponent (the inf/nan forms, underscores and
surrounding whitespace accepted by CPython do not occur in the claims). -/
def parseFloatLit (s : String) : Option ℚ :=
  match s.data with
  | '+' :: rest => parseFloatBody rest
  | '-' :: rest => (parseFloatBody rest).map qNeg
  | cs => parseFloatBody cs

/-- Python float(v): floats are returned unchanged, ints and bools are converted
exactly, strings are parsed then rounded to the nearest double; a non-numeric
string raises ValueError, other types raise TypeError. -/
def pyFloatCast : Value → Except Err ℚ
  | .vFloat q => .ok q
  | .vInt n => .ok (qOfInt n)
  | .vBool b => .ok (qOfInt (if b then 1 else 0))
  | .vStr s =>
    match parseFloatLit s with
    | some q => .ok (roundDouble q)
    | none => .error (.py .valueError)
  | _ => .error (.py .typeError)

----------------------------------------------------------------------------
-- dateutil.parser.isoparse and datetime.isoformat models
----------------------------------------------------------------------------

/-- Leap-year predicate of the proleptic Gregorian calendar used by datetime. -/
def isLeapYear (y : Nat) : Bool :=
  (y % 4 = 0 && y % 100 ≠ 0) || y % 400 = 0

/-- Days in a month, as validated by the datetime constructor. -/
def daysInMonth (y m : Nat) : Nat :=
  if m = 2 then (if isLeapYear y then 29 else 28)
  else if m = 4 || m = 6 || m = 9 || m = 11 then 30
  else 31

/-- Read exactly n digits from a character list. -/
def readFixedDigits : Nat → Nat → List Char → Option (Nat × List Char)
  | 0, acc, cs => some (acc, cs)
  | n + 1, acc, cs =>
    match cs with
    | c :: rest =>
      if c.isDigit then readFixedDigits n (acc * 10 + (c.toNat - '0'.toNat)) rest
      else none
    | [] => none

/-- Parse the timezone suffix of an ISO-8601 string: empty (naive), Z, or a
signed HH:MM offset.  dateutil represents a zero offset as UTC itself and a
nonzero offset as tzoffset(None, seconds). -/
def parseTzSuffix : List Char → Option (Option Tz)
  | [] => some none
  | ['Z'] => some (some .utc)
  | c :: rest =>
    if c = '+' || c = '-' then
      match readFixedDigits 2 0 rest with
      | some (hh, ':' :: rest2) =>
        match readFixedDigits 2 0 rest2 with
        | some (mm, []) =>
          if hh ≤ 23 && mm ≤ 59 then
            if hh = 0 && mm = 0 then some (some .utc)
            else
              let total : Int := (hh : Int) * 60 + (mm : Int)
              some (some (.offsetMin (if c = '-' then -total else total)))
          else none
        | _ => none
      | _ => none
    else none

/-- Parse the fractional-second part: a dot followed by one to six digits,
scaled to microseconds; absent otherwise. -/
def parseFraction : List Char → Option (Nat × List Char)
  | '.' :: rest =>
    match readDigitRun rest 0 0 with
    | (v, cnt, rest2) =>
      if 1 ≤ cnt && cnt ≤ 6 then some (v * 10 ^ (6 - cnt), rest2) else none
  | cs => some (0, cs)

/-- Parse the time-of-day part THH:MM[:SS[.ffffff]] followed by the timezone
suffix; an empty list yields midnight, naive. -/
def parseTimePart : List Char → Option (Nat × Nat × Nat × Nat × Option Tz)
  | [] => some (0, 0, 0, 0, none)
  | 'T' :: rest =>
    match readFixedDigits 2 0 rest with
    | some (hh, ':' :: rest2) =>
      match readFixedDigits 2 0 rest2 with
      | some (mm, rest3) =>
        match rest3 with
        | ':' :: rest4 =>
          match readFixedDigits 2 0 rest4 with
          | some (ss, rest5) =>
            match parseFraction rest5 with
            | some (us, rest6) =>
              match parseTzSuffix rest6 with
              | some tzv => some (hh, mm, ss, us, tzv)
              | none => none
            | none => none
          | none => none
        | _ =>
          match parseTzSuffix rest3 with
          | some tzv => some (hh, mm, 0, 0, tzv)
          | none => none
      | _ => none
    | _ => none
  | _ => none

/-- Model of dateutil.parser.isoparse restricted to the forms occurring here:
YYYY-MM-DD, optionally followed by THH:MM[:SS[.ffffff]] and a timezone suffix.
none models the ValueError raised for malformed input.  Field ranges are
validated as the datetime constructor does. -/
def pyIsoparse (s : String) : Option PyDateTime :=
  match readFixedDigits 4 0 s.data with
  | some (y, '-' :: r1) =>
    match readFixedDigits 2 0 r1 with
    | some (mo, '-' :: r2) =>
      match readFixedDigits 2 0 r2 with
      | some (d, r3) =>
        match parseTimePart r3 with
        | some (hh, mi, ss, us, tzv) =>
          if 1 ≤ y && y ≤ 9999 && 1 ≤ mo && mo ≤ 12 && 1 ≤ d && d ≤ daysInMonth y mo
              && hh ≤ 23 && mi ≤ 59 && ss ≤ 59 then
            some ⟨y, mo, d, hh, mi, ss, us, tzv⟩
          else none
        | none => none
      | _ => none
    | _ => none
  | _ => none

/-- Decimal digit character. -/
def digitChar : Nat → Char
  | 0 => '0' | 1 => '1' | 2 => '2' | 3 => '3' | 4 => '4'
  | 5 => '5' | 6 => '6' | 7 => '7' | 8 => '8' | _ => '9'

/-- Two-digit zero-padded decimal rendering. -/
def pad2 (n : Nat) : String :=
  String.mk [digitChar (n / 10 % 10), digitChar (n % 10)]

/-- Four-digit zero-padded decimal rendering. -/
def pad4 (n : Nat) : String :=
  String.mk [digitChar (n / 1000 % 10), digitChar (n / 100 % 10), digitChar (n / 10 % 10), digitChar (n % 10)]

/-- Six-digit zero-padded decimal rendering. -/
def pad6 (n : Nat) : String :=
  String.mk [digitChar (n / 100000 % 10), digitChar (n / 10000 % 10), digitChar (n / 1000 % 10),
    digitChar (n / 100 % 10), digitChar (n / 10 % 10), digitChar (n % 10)]

/-- The utcoffset rendering datetime.isoformat appends for an aware datetime. -/
def isoTzSuffix : Option Tz → String
  | none => ""
  | some .utc => "+00:00"
  | some (.offsetMin m) =>
    let mag := m.natAbs
    (if m < 0 then "-" else "+") ++ pad2 (mag / 60) ++ ":" ++ pad2 (mag % 60)

/-- Model of datetime.isoformat(): seconds precision, with fractional digits
only when the microsecond field is nonzero, then the utcoffset suffix. -/
def pyIsoformat (dt : PyDateTime) : String :=
  pad4 dt.year ++ "-" ++ pad2 dt.month ++ "-" ++ pad2 dt.day ++ "T"
    ++ pad2 dt.hour ++ ":" ++ pad2 dt.minute ++ ":" ++ pad2 dt.second
    ++ (if dt.microsecond ≠ 0 then "." ++ pad6 dt.microsecond else "")
    ++ isoTzSuffix dt.tz

/-- tzinfo.tzname(dt) for the timezone objects in scope: pytz/dateutil UTC is
named UTC; a dateutil tzoffset is built with name None by isoparse. -/
def dtTzname : Tz → Option String
  | .utc => some "UTC"
  | .offsetMin _ => none

----------------------------------------------------------------------------
-- encoders.py
----------------------------------------------------------------------------

/-- encoders.py DateTimeEncoder.from_json: isoparse the string (malformed input
becomes PropertyConstraintViolation), assume naive datetimes are UTC, then
reject any timezone whose tzname is not UTC.  A non-string argument makes
isoparse raise TypeError, which from_json does not catch. -/
def DateTimeEncoder_from_json (jsonValue : Value) : Except Err Value :=
  match jsonValue with
  | .vStr s =>
    match pyIsoparse s with
    | none => .error (.ocpp ⟨.PropertyConstraintViolation, .dateInputNotFormattedAppropriately, none⟩)
    | some dt =>
      match dt.tz with
      | none => .ok (.vDateTime { dt with tz := some Tz.utc })
      | some tzv =>
        if dtTzname tzv = some "UTC" then .ok (.vDateTime dt)
        else .error (.ocpp ⟨.PropertyConstraintViolation, .dateInputMustUseUTC, none⟩)
  | _ => .error (.py .typeError)

/-- encoders.py DateTimeEncoder.to_json: reject non-datetime input with
TypeConstraintViolation, reject a naive or non-UTC timestamp with
PropertyConstraintViolation, and otherwise emit isoformat(). -/
def DateTimeEncoder_to_json (value : Value) : Except Err Value :=
  match value with
  | .vDateTime dt =>
    match dt.tz with
    | none => .error (.ocpp ⟨.PropertyConstraintViolation, .dateInputMustUseUTC, none⟩)
    | some tzv =>
      if dtTzname tzv = some "UTC" then .ok (.vStr (pyIsoformat dt))
      else .error (.ocpp ⟨.PropertyConstraintViolation, .dateInputMustUseUTC, none⟩)
  | _ => .error (.ocpp ⟨.TypeConstraintViolation, .inputNotADatetimeInstance, none⟩)

/-- encoders.py EnumEncoder.from_json: by-value member lookup through the enum
class (Python == semantics), PropertyConstraintViolation when absent. -/
def EnumEncoder_from_json (cls : EnumCls) (jsonValue : Value) : Except Err Value :=
  match cls.members.find? (fun m => pyKeyEq m.2 jsonValue) with
  | some m => .ok (.vEnum cls.ename m.1 m.2)
  | none => .error (.ocpp ⟨.PropertyConstraintViolation, .notAValidEnumEntry, none⟩)

/-- encoders.py EnumEncoder.to_json: reject a value that is not an instance of
the enum class with TypeConstraintViolation, else emit the member's value. -/
def EnumEncoder_to_json (cls : EnumCls) (value : Value) : Except Err Value :=
  match value with
  | .vEnum c _ v =>
    if c = cls.ename then .ok v
    else .error (.ocpp ⟨.TypeConstraintViolation, .inputNotAnEnumInstance, none⟩)
  | _ => .error (.ocpp ⟨.TypeConstraintViolation, .inputNotAnEnumInstance, none⟩)

/-- encoders.py OutgoingMessageDecimalEncoder.from_json: the identity. -/
def OutgoingMessageDecimalEncoder_from_json (jsonValue : Value) : Except Err Value :=
  .ok jsonValue

/-- Decimal(f).quantize(Decimal with six zeros, rounding=ROUND_DOWN): truncate
the exact value toward zero at six fractional digits.  none models the
InvalidOperation raised when the result needs more digits than the default
context's 28-digit precision. -/
def decimalQuantizeSixDown (q : ℚ) : Option ℚ :=
  let coeff := ratTruncZ (qMul q (qOfInt 1000000))
  if coeff.natAbs < 10 ^ 28 then some (mkRat coeff 1000000) else none

/-- encoders.py OutgoingMessageDecimalEncoder.to_json: float(value) with
ValueError mapped to TypeConstraintViolation, then quantization of the exact
double to six fractional places rounding down, re-read as a double. -/
def OutgoingMessageDecimalEncoder_to_json (value : Value) : Except Err Value :=
  match pyFloatCast value with
  | .error (.py .valueError) => .error (.ocpp ⟨.TypeConstraintViolation, .inputCannotBeCastToFloat, none⟩)
  | .error e => .error e
  | .ok floatValue =>
    match decimalQuantizeSixDown floatValue with
    | some truncated => .ok (.vFloat (roundDouble truncated))
    | none => .error (.ocpp ⟨.TypeConstraintViolation, .couldNotBeTruncated, none⟩)

/-- Dispatch an encoder instance's from_json method. -/
def encoderFromJson : Encoder → Value → Except Err Value
  | .enumEnc cls, v => EnumEncoder_from_json cls v
  | .dateTimeEnc, v => DateTimeEncoder_from_json v
  | .outgoingDecimalEnc, v => OutgoingMessageDecimalEncoder_from_json v

/-- Dispatch an encoder instance's to_json method. -/
def encoderToJson : Encoder → Value → Except Err Value
  | .enumEnc cls, v => EnumEncoder_to_json cls v
  | .dateTimeEnc, v => DateTimeEncoder_to_json v
  | .outgoingDecimalEnc, v => OutgoingMessageDecimalEncoder_to_json v

----------------------------------------------------------------------------
-- validators.py validator functions
----------------------------------------------------------------------------

/-- Run one validators.py function: noop returns its input; max_length raises
PropertyConstraintViolation when len(value) exceeds the limit (len of an
unsupported type raises TypeError). -/
def runValidatorFn : Validator → Value → Except Err Value
  | .noop, v => .ok v
  | .maxLength n, v =>
    match pyLen v with
    | none => .error (.py .typeError)
    | some l =>
      if n < l then .error (.ocpp ⟨.PropertyConstraintViolation, .inputIsTooLong, none⟩)
      else .ok v

----------------------------------------------------------------------------
-- serializer.py _run_validator / parse_field
----------------------------------------------------------------------------

/-- serializer.py 46-48: on a BaseOCPPError escaping a validator, inject the
field's name into the details with setdefault. -/
def withFieldDetail (name : String) : Except Err Value → Except Err Value
  | .error (.ocpp e) => .error (.ocpp { e with fieldName := some (e.fieldName.getD name) })
  | r => r

/-- serializer.py 36-50 _run_validator: fetch the object stored under the
metadata key validator, defaulting to noop; when it is an instance of
validators.BaseEncoder pick from_json or to_json, otherwise call it.  An
encoders.py instance is not a validators.BaseEncoder and is not callable, so
calling it raises TypeError; so does calling a list of validators.  Note the
field declarations in this codebase store their validators under the metadata
key validators (and encoders under encoder), which this function never reads. -/
def _run_validator (f : SField) (data : Value) (parsing : Bool) : Except Err Value :=
  match f.fmeta.validator.getD (.fn .noop) with
  | .fn fn => withFieldDetail f.name (runValidatorFn fn data)
  | .vEncoderInst e => withFieldDetail f.name (if parsing then encoderFromJson e data else encoderToJson e data)
  | .fnList _ => .error (.py .typeError)
  | .encoderInst _ => .error (.py .typeError)

/-- serializer.py 97-123 parse_field: strict isinstance check of the wire value
against the field's declared type (TypeConstraintViolation carrying the field
name on mismatch), then _run_validator.  isinstance against a typing generic
raises TypeError; a wire value is never an instance of a dataclass type. -/
def parse_field (f : SField) (data : Value) : Except Err Value :=
  match f.ftype with
  | .prim p =>
    if pyIsInstance data p then _run_validator f data true
    else .error (.ocpp ⟨.TypeConstraintViolation, .valueNotOfExpectedType, some f.name⟩)
  | .flist _ => .error (.py .typeError)
  | _ => .error (.ocpp ⟨.TypeConstraintViolation, .valueNotOfExpectedType, some f.name⟩)

----------------------------------------------------------------------------
-- serializer.py parse_data
----------------------------------------------------------------------------

/-- The body of the per-field loop of parse_data (serializer.py 169-197),
parameterized by the recursive call used for nested dataclasses.  Returns none
for a skipped optional field, otherwise the entry added to validated_data. -/
def parseFieldStep (recurse : List SField → Value → Except Err Value)
    (kvs : List (String × Value)) (f : SField) : Except Err (Option (String × Value)) :=
  let absentOrUndefined :=
    match objGet kvs f.name with
    | none => true
    | some v => _is_undefined f v
  if _is_optional f && absentOrUndefined then .ok none
  else
    let f1 := if !_is_generic f.ftype && _is_simple f.ftype then _extract_base_type f else f
    match objGet kvs f1.name with
    | none => .error (.py .keyError)
    | some dataItem =>
      if _is_dataclass f1.ftype then
        (recurse (dcFields f1.ftype) dataItem).map (fun r => some (f1.name, r))
      else if _is_list f1.ftype then
        match dataItem with
        | .vList _ =>
          match _run_validator f1 dataItem true with
          | .error e => .error e
          | .ok validatedItem =>
            match validatedItem with
            | .vList elems =>
              let f2 := _unpack_field f1
              let parseFunc : Value → Except Err Value :=
                if _is_dataclass f2.ftype then recurse (dcFields f2.ftype) else parse_field f2
              (elems.mapM parseFunc).map (fun rs => some (f1.name, .vList rs))
            | _ => .error (.py .typeError)
        | _ => .error (.ocpp ⟨.TypeConstraintViolation, .fieldIsNotAList, none⟩)
      else
        (parse_field f1 dataItem).map (fun r => some (f1.name, r))

/-- serializer.py 126-199 parse_data, with explicit recursion fuel.  The guards
run in source order: len(data) against the field count (len of a non-sized
object raises TypeError), then the required-fields check (data.keys() on a
non-mapping raises AttributeError), then the per-field loop, and finally the
dataclass constructor call, which raises TypeError whenever validated_data
contains a field declared init=False (the constructor does not accept it).
The record produced by a successful constructor call carries every dataclass
field: a skipped optional field gets its default, an init=False field gets the
value of the class attribute assigned over it. -/
def parseDataF : Nat → List SField → Value → Except Err Value
  | 0, _, _ => .error (.py .recursionError)
  | fuel + 1, fs, .vObj kvs =>
    if fs.length < kvs.length then .error (.ocpp ⟨.ProtocolError, .tooManyArguments, none⟩)
    else
      let req := required_fields fs
      let reqPresent := req.all (fun f => (kvs.map Prod.fst).contains f.name)
      let anyUndefined := req.any (fun f =>
        match objGet kvs f.name with
        | some v => _is_undefined f v
        | none => false)
      if !reqPresent || anyUndefined then
        .error (.ocpp ⟨.ProtocolError, .missingOrUndefinedRequiredFields, none⟩)
      else
        match fs.foldlM (fun acc f =>
            (parseFieldStep (parseDataF fuel) kvs f).map (fun r =>
              match r with
              | some kv => acc ++ [kv]
              | none => acc)) ([] : List (String × Value)) with
        | .error e => .error e
        | .ok validated =>
          if fs.any (fun f => !f.finit && (validated.map Prod.fst).contains f.name) then
            .error (.py .typeError)
          else
            .ok (.vObj (fs.map (fun f =>
              (f.name,
                if f.finit then (objGet validated f.name).getD (f.fdefault.getD .vNull)
                else f.classAttr.getD .vNull))))
  | _ + 1, fs, .vStr s =>
    -- len(data) of a str passes the count guard arithmetic, after which the
    -- data.keys() access raises AttributeError
    if fs.length < s.length then .error (.ocpp ⟨.ProtocolError, .tooManyArguments, none⟩)
    else .error (.py .attributeError)
  | _ + 1, fs, .vList xs =>
    if fs.length < xs.length then .error (.ocpp ⟨.ProtocolError, .tooManyArguments, none⟩)
    else .error (.py .attributeError)
  | _ + 1, _, _ =>
    -- len(data) raises TypeError on the remaining value shapes
    .error (.py .typeError)

/-- serializer.py parse_data.  The fuel mirrors CPython's default recursion
limit of 1000 frames; the schemas of this codebase nest a handful of levels, so
the fuel is never exhausted on the executions reasoned about here. -/
def parse_data (fs : List SField) (data : Value) : Except Err Value :=
  parseDataF 1000 fs data

----------------------------------------------------------------------------
-- serializer.py serialize_field / serialize_fields
----------------------------------------------------------------------------

/-- serializer.py 298-332 serialize_field: extract the base field out of a
SimpleType (issubclass against a typing generic raises TypeError), run
_run_validator in serializing direction, then check the output's type with
isinstance, raising TypeConstraintViolation with the field name on mismatch. -/
def serialize_field (f : SField) (data : Value) : Except Err Value :=
  match f.ftype with
  | .flist _ => .error (.py .typeError)
  | _ =>
    let f1 := if _is_simple f.ftype then _extract_base_type f else f
    match _run_validator f1 data false with
    | .error e => .error e
    | .ok validated =>
      match f1.ftype with
      | .prim p =>
        if pyIsInstance validated p then .ok validated
        else .error (.ocpp ⟨.TypeConstraintViolation, .itemNotOfExpectedType, some f1.name⟩)
      | _ => .error (.ocpp ⟨.TypeConstraintViolation, .itemNotOfExpectedType, some f1.name⟩)

/-- The body of the per-field loop of serialize_fields (serializer.py 354-377),
parameterized by the recursive call used for nested ComplexType values. -/
def serializeFieldStep (recurse : List SField → Value → Except Err Value)
    (msg : Value) (f : SField) : Except Err (Option (String × Value)) :=
  let fieldValue := getattrV msg f.name
  if _is_undefined f fieldValue && _is_optional f then .ok none
  else if _is_undefined f fieldValue && !_is_optional f then
    .error (.ocpp ⟨.ProtocolError, .undefinedRequiredField, none⟩)
  else if _is_list f.ftype then
    match _run_validator f fieldValue false with
    | .error e => .error e
    | .ok validatedValue =>
      match validatedValue with
      | .vList elems =>
        let f2 := _unpack_field f
        let serializeFunc : Value → Except Err Value :=
          if _is_complex f2.ftype then recurse (dcFields f2.ftype) else serialize_field f2
        (elems.mapM serializeFunc).map (fun rs => some (f.name, .vList rs))
      | _ => .error (.py .typeError)
  else if _is_complex f.ftype then
    (recurse (dcFields f.ftype) fieldValue).map (fun r => some (f.name, r))
  else
    (serialize_field f fieldValue).map (fun r => some (f.name, r))

/-- serializer.py 335-379 serialize_fields, with explicit recursion fuel. -/
def serializeFieldsF : Nat → List SField → Value → Except Err Value
  | 0, _, _ => .error (.py .recursionError)
  | fuel + 1, fs, msg =>
    match fs.foldlM (fun acc f =>
        (serializeFieldStep (serializeFieldsF fuel) msg f).map (fun r =>
          match r with
          | some kv => acc ++ [kv]
          | none => acc)) ([] : List (String × Value)) with
    | .error e => .error e
    | .ok kvs => .ok (.vObj kvs)

/-- serializer.py serialize_fields (fuel as for parse_data). -/
def serialize_fields (fs : List SField) (msg : Value) : Except Err Value :=
  serializeFieldsF 1000 fs msg

----------------------------------------------------------------------------
-- structure.py: enum classes and envelope schemas
----------------------------------------------------------------------------

/-- structure.py MessageTypeEnum. -/
def MessageTypeEnumCls : EnumCls :=
  ⟨"MessageTypeEnum", [("CALL", .vInt 2), ("CALLRESULT", .vInt 3), ("CALLERROR", .vInt 4)]⟩

/-- types.py ErrorCodeEnum as a Python enum class (AutoNameEnum: each member's
value is its name). -/
def ErrorCodeEnumCls : EnumCls :=
  ⟨"ErrorCodeEnum",
    [("NotImplemented", .vStr "NotImplemented"),
     ("NotSupported", .vStr "NotSupported"),
     ("InternalError", .vStr "InternalError"),
     ("ProtocolError", .vStr "ProtocolError"),
     ("SecurityError", .vStr "SecurityError"),
     ("FormationViolation", .vStr "FormationViolation"),
     ("PropertyConstraintViolation", .vStr "PropertyConstraintViolation"),
     ("OccurenceConstraintViolation", .vStr "OccurenceConstraintViolation"),
     ("TypeConstraintViolation", .vStr "TypeConstraintViolation"),
     ("GenericError", .vStr "GenericError"),
     ("FormatViolation", .vStr "FormatViolation"),
     ("MessageTypeNotSupported", .vStr "MessageTypeNotSupported"),
     ("RpcFrameworkError", .vStr "RpcFrameworkError")]⟩

/-- structure.py MessageType: a SimpleType whose value field is an int carrying
the MessageTypeEnum encoder under the metadata key encoder. -/
def MessageType_value : SField :=
  { name := "value", ftype := .prim .pInt,
    fmeta := { encoder := some (.encoderInst (.enumEnc MessageTypeEnumCls)) } }

/-- structure.py ErrorCode: a SimpleType whose value field is a str carrying the
ErrorCodeEnum encoder under the metadata key encoder. -/
def ErrorCode_value : SField :=
  { name := "value", ftype := .prim .pStr,
    fmeta := { encoder := some (.encoderInst (.enumEnc ErrorCodeEnumCls)) } }

/-- The two OCPPMessage base fields (structure.py 33-36): messageTypeId is
declared with field(init=False), and uniqueId carries max_length_36 under the
metadata key validators. -/
def uniqueIdField : SField :=
  { name := "uniqueId", ftype := .prim .pStr,
    fmeta := { validators := some (.fn (.maxLength 36)) } }

/-- dataclasses.fields of structure.Call: the inherited messageTypeId (init
excluded, overlaid by the class attribute MessageTypeEnum.CALL) and uniqueId,
then action and payload. -/
def CallFields : List SField :=
  [{ name := "messageTypeId", ftype := .simple MessageType_value, finit := false,
     classAttr := some (.vEnum "MessageTypeEnum" "CALL" (.vInt 2)) },
   uniqueIdField,
   { name := "action", ftype := .prim .pStr },
   { name := "payload", ftype := .prim .pDict }]

/-- dataclasses.fields of structure.CallResult. -/
def CallResultFields : List SField :=
  [{ name := "messageTypeId", ftype := .simple MessageType_value, finit := false,
     classAttr := some (.vEnum "MessageTypeEnum" "CALLRESULT" (.vInt 3)) },
   uniqueIdField,
   { name := "payload", ftype := .prim .pDict }]

/-- dataclasses.fields of structure.CallError. -/
def CallErrorFields : List SField :=
  [{ name := "messageTypeId", ftype := .simple MessageType_value, finit := false,
     classAttr := some (.vEnum "MessageTypeEnum" "CALLERROR" (.vInt 4)) },
   uniqueIdField,
   { name := "errorCode", ftype := .simple ErrorCode_value },
   { name := "errorDescription", ftype := .prim .pStr },
   { name := "errorDetails", ftype := .prim .pDict }]

----------------------------------------------------------------------------
-- compat.py and serializer.py parse
----------------------------------------------------------------------------

/-- compat.py OcppJsonProtocol. -/
inductive Protocol where
  | v16
  | v20
deriving DecidableEq

/-- A messages-module Action class: its request and response payload schemas
(compat.py resolves action.req/action.conf for v16 and action.Request/
action.Response for v20; both resolve to these schemas). -/
structure ActionDef where
  requestFields : List SField
  responseFields : List SField

/-- compat.py 25-28 get_rpc_framework_error: RpcFrameworkError under v20,
GenericError otherwise. -/
def get_rpc_framework_error (msg : EMsg) (protocol : Protocol) : OCPPError :=
  match protocol with
  | .v20 => ⟨.RpcFrameworkError, msg, none⟩
  | .v16 => ⟨.GenericError, msg, none⟩

/-- compat.py 31-34 get_message_type_not_supported_error:
MessageTypeNotSupported under v20, GenericError otherwise. -/
def get_message_type_not_supported_error (msg : EMsg) (protocol : Protocol) : OCPPError :=
  match protocol with
  | .v20 => ⟨.MessageTypeNotSupported, msg, none⟩
  | .v16 => ⟨.GenericError, msg, none⟩

/-- compat.py 16-22 get_implemented_messages, with the two IMPLEMENTED
registries of v16/messages.py and v20/messages.py supplied as parameters (the
claims hold for every registry contents). -/
def get_implemented_messages (impl16 impl20 : List (String × ActionDef)) :
    Protocol → List (String × ActionDef)
  | .v16 => impl16
  | .v20 => impl20

/-- serializer.py 202-206 _MSGTYPEID_TO_DATACLASS together with the membership
test and indexing of serializer.py 238-244, under Python dict-key semantics:
testing an unhashable key (a list or dict) raises TypeError before any
comparison; hashable keys compare with numeric cross-type equality, 2 mapping
to Call, 3 to CallResult and 4 to CallError, and any other hashable key being
reported absent. -/
def msgTypeSchema (v : Value) : Except PyExcKind (Option (List SField)) :=
  if !pyHashable v then .error .typeError
  else if pyKeyEq v (.vInt 2) then .ok (some CallFields)
  else if pyKeyEq v (.vInt 3) then .ok (some CallResultFields)
  else if pyKeyEq v (.vInt 4) then .ok (some CallErrorFields)
  else .ok none

/-- serializer.py 248: zip the dataclass fields with the raw positional
elements, stopping at the shorter of the two. -/
def zipFieldNames : List SField → List Value → List (String × Value)
  | f :: fs, v :: vs => (f.name, v) :: zipFieldNames fs vs
  | _, _ => []

/-- serializer.py 252-253: a null payload entry is normalized to an empty dict. -/
def normalizePayload (kvs : List (String × Value)) : List (String × Value) :=
  match objGet kvs "payload" with
  | some .vNull => kvs.map (fun kv => if kv.1 = "payload" then (kv.1, .vObj []) else kv)
  | _ => kvs

/-- An exception escaping serializer.parse: an exceptions.OCPPException wrapping
a BaseOCPPError together with the related request id, or a plain Python
exception (TypeError, ValueError, ...) which parse does not catch. -/
inductive PErr where
  | exc (e : OCPPError) (relatedRequestId : Value)
  | py (k : PyExcKind)

/-- Does this parsed messageTypeId attribute equal the given MessageTypeEnum
member (Python enum equality is identity of class and member)? -/
def isEnumMember (v : Value) (cls member : String) : Bool :=
  match v with
  | .vEnum c m _ => c = cls && m = member
  | _ => false

/-- serializer.py 212-292 parse: entry guard (non-list or empty input), message
type classification, positional zip and structural parse of the envelope, then
for Call/CallResult the action lookup in the protocol's registry and the
recursive payload parse.  BaseOCPPError failures are wrapped into OCPPException
bound to the sentinel "-1" until the envelope has been parsed, and to the
message's own uniqueId afterwards; plain Python exceptions propagate. -/
def parse (impl16 impl20 : List (String × ActionDef)) (rawData : Value)
    (callResultActionName : Option String) (protocol : Protocol) : Except PErr Value :=
  match rawData with
  | .vList [] => .error (.exc (get_rpc_framework_error .messageMustBeNonEmptyList protocol) (.vStr "-1"))
  | .vList (x :: rest) =>
    match msgTypeSchema x with
    | .error k => .error (.py k)
    | .ok none => .error (.exc (get_message_type_not_supported_error .messageTypeNotSupported protocol) (.vStr "-1"))
    | .ok (some fs) =>
      let ocppDict := normalizePayload (zipFieldNames fs (x :: rest))
      match parse_data fs (.vObj ocppDict) with
      | .error (.ocpp e) => .error (.exc e (.vStr "-1"))
      | .error (.py k) => .error (.py k)
      | .ok ocppMsg =>
        let mtid := getattrV ocppMsg "messageTypeId"
        let isCall := isEnumMember mtid "MessageTypeEnum" "CALL"
        let isCallResult := isEnumMember mtid "MessageTypeEnum" "CALLRESULT"
        if isCall || isCallResult then
          if isCallResult && callResultActionName.isNone then .error (.py .valueError)
          else
            let actionName : Value :=
              if isCall then getattrV ocppMsg "action" else .vStr (callResultActionName.getD "")
            let implemented := get_implemented_messages impl16 impl20 protocol
            match implemented.find? (fun a =>
                match actionName with
                | .vStr s => a.1 = s
                | _ => false) with
            | none => .error (.exc ⟨.NotImplemented, .actionNotImplemented, none⟩ (getattrV ocppMsg "uniqueId"))
            | some a =>
              let payloadFields := if isCall then a.2.requestFields else a.2.responseFields
              match parse_data payloadFields (getattrV ocppMsg "payload") with
              | .error (.ocpp e) => .error (.exc e (getattrV ocppMsg "uniqueId"))
              | .error (.py k) => .error (.py k)
              | .ok payload => .ok (setattrV ocppMsg "payload" payload)
        else .ok ocppMsg
  | _ => .error (.exc (get_rpc_framework_error .messageMustBeNonEmptyList protocol) (.vStr "-1"))

----------------------------------------------------------------------------
-- tests/types.py and tests/messages.py schemas
----------------------------------------------------------------------------

/-- tests/types.py FooBarEnum. -/
def FooBarEnumCls : EnumCls :=
  ⟨"FooBarEnum", [("Foo", .vStr "Foo"), ("Bar", .vStr "Bar")]⟩

/-- tests/types.py ValidatedType: value str with validators=[max_length_20]. -/
def ValidatedType_value : SField :=
  { name := "value", ftype := .prim .pStr,
    fmeta := { validators := some (.fnList [.maxLength 20]) } }

/-- tests/types.py DateTimeType: value str with encoder=DateTimeEncoder(). -/
def DateTimeType_value : SField :=
  { name := "value", ftype := .prim .pStr,
    fmeta := { encoder := some (.encoderInst .dateTimeEnc) } }

/-- tests/types.py EnumType: value str with encoder=EnumEncoder(FooBarEnum). -/
def EnumType_value : SField :=
  { name := "value", ftype := .prim .pStr,
    fmeta := { encoder := some (.encoderInst (.enumEnc FooBarEnumCls)) } }

/-- tests/types.py ComplexType. -/
def ComplexTypeFields : List SField :=
  [{ name := "enumValue", ftype := .simple EnumType_value },
   { name := "validatedValue", ftype := .simple ValidatedType_value }]

/-- tests/types.py ElementType (optionalValue defaults to None). -/
def ElementTypeFields : List SField :=
  [{ name := "value", ftype := .prim .pStr },
   { name := "optionalValue", ftype := .simple EnumType_value, fdefault := some .vNull }]

/-- tests/types.py ListElementType. -/
def ListElementTypeFields : List SField :=
  [{ name := "datetimeValue", ftype := .simple DateTimeType_value },
   { name := "nestedListValue", ftype := .flist (.struct ElementTypeFields) }]

/-- tests/messages.py SimpleAction.req. -/
def SimpleActionReqFields : List SField :=
  [{ name := "value", ftype := .prim .pStr },
   { name := "validatedValue", ftype := .simple ValidatedType_value },
   { name := "enumValue", ftype := .simple EnumType_value }]

/-- tests/messages.py SimpleAction.conf. -/
def SimpleActionConfFields : List SField :=
  [{ name := "value", ftype := .prim .pInt },
   { name := "datetimeValue", ftype := .simple DateTimeType_value }]

/-- tests/messages.py ComplexAction.req (listValue carries
validators=[max_length_4]; optionalValue defaults to None). -/
def ComplexActionReqFields : List SField :=
  [{ name := "complexValue", ftype := .struct ComplexTypeFields },
   { name := "listValue", ftype := .flist (.struct ListElementTypeFields),
     fmeta := { validators := some (.fnList [.maxLength 4]) } },
   { name := "optionalValue", ftype := .prim .pStr, fdefault := some .vNull }]

----------------------------------------------------------------------------
-- Claim theorems
----------------------------------------------------------------------------

/-- C1: the claim states that parsing runs a field's declared validator chain in
order (first failure winning) and invokes the encoder's decode step for encoder
fields.  The code does neither: serializer._run_validator reads the metadata key
validator, while every field declares its validators under the key validators
and its encoder under encoder, so parse_field falls back to the noop validator.
This theorem exhibits the divergence on the repository's own test fields: every
string (of any length) passes the max_length_20-validated field of
tests.types.ValidatedType unchanged, and the DateTimeEncoder field of
tests.types.DateTimeType returns the raw wire string instead of a decoded
datetime (tests/test_serializer.py::test_parse_field asserts the opposite). -/
theorem C1_validator_chain_never_runs :
    (∀ s : String, parse_field ValidatedType_value (.vStr s) = .ok (.vStr s))
    ∧ parse_field DateTimeType_value (.vStr "2019-01-30T12:30:00Z")
        = .ok (.vStr "2019-01-30T12:30:00Z") :=
  ⟨fun _ => rfl, rfl⟩

/-- C2: the claim states that the envelope-level parse of the wire input
[2, "19223201", "DontCare", and a payload object] returns a Call with that
uniqueId, action and raw payload without raising.  In the code, parse_data zips
the raw list against all dataclass fields of Call including the init=False
discriminant messageTypeId, parses it, and then calls the Call constructor with
messageTypeId as a keyword argument, which raises TypeError (the constructor of
a dataclass does not accept init=False fields).  The crash happens for every
registry contents, call_result_action_name and protocol version. -/
theorem C2_envelope_parse_crashes :
    ∀ (impl16 impl20 : List (String × ActionDef)) (cran : Option String) (p : Protocol),
      parse impl16 impl20
        (.vList [.vInt 2, .vStr "19223201", .vStr "DontCare", .vObj [("dont", .vStr "care")]])
        cran p = .error (.py .typeError) :=
  fun _ _ _ _ => rfl

/-- C3: the claim states the round-trip parse-after-serialize identity for every
schema and valid native record.  It fails already at the serialize step: for the
test record SimpleAction.req(value=foo, validatedValue=bar, enumValue=Foo), the
enum member is never encoded (the EnumEncoder sits under the metadata key
encoder, which serializer._run_validator does not read), so serialize_field's
post-validation isinstance check sees an enum member where a str is declared and
raises TypeConstraintViolation (tests/test_serializer.py::test_serialize_fields
asserts the serialization succeeds with enumValue encoded to the string Foo). -/
theorem C3_round_trip_broken_at_serialize :
    serialize_fields SimpleActionReqFields
      (.vObj [("value", .vStr "foo"), ("validatedValue", .vStr "bar"),
              ("enumValue", .vEnum "FooBarEnum" "Foo" (.vStr "Foo"))])
      = .error (.ocpp ⟨.TypeConstraintViolation, .itemNotOfExpectedType, some "enumValue"⟩) :=
  rfl

/-- C5: the claim states that for every schema a wire object missing a required
field, or supplying it as null, or supplying a required List field as the empty
list, fails with ProtocolError, and that supplying exactly the required fields
succeeds whenever each value individually validates.  The three failure parts
hold (first three conjuncts, on the repository's test schemas).  The success
part is violated by the envelope schemas: supplying exactly the required fields
of structure.Call, each individually valid, does not succeed but raises
TypeError, because parse_data passes the init=False field messageTypeId to the
dataclass constructor (fourth conjunct). -/
theorem C5_required_field_checks_and_constructor_crash :
    parse_data SimpleActionReqFields
      (.vObj [("value", .vStr "data"), ("validatedValue", .vStr "data")])
      = .error (.ocpp ⟨.ProtocolError, .missingOrUndefinedRequiredFields, none⟩)
    ∧ parse_data SimpleActionReqFields
      (.vObj [("value", .vStr "data"), ("validatedValue", .vStr "data"), ("enumValue", .vNull)])
      = .error (.ocpp ⟨.ProtocolError, .missingOrUndefinedRequiredFields, none⟩)
    ∧ parse_data ComplexActionReqFields
      (.vObj [("complexValue", .vObj [("enumValue", .vStr "Foo"), ("validatedValue", .vStr "data")]),
              ("listValue", .vList [])])
      = .error (.ocpp ⟨.ProtocolError, .missingOrUndefinedRequiredFields, none⟩)
    ∧ parse_data CallFields
      (.vObj [("messageTypeId", .vInt 2), ("uniqueId", .vStr "19223201"),
              ("action", .vStr "Heartbeat"), ("payload", .vObj [])])
      = .error (.py .typeError) :=
  ⟨rfl, rfl, rfl, rfl⟩

/-- C8: the outbound decimal encoder's decode step is the identity; its encode
step casts to float (rejecting a non-numeric string with
TypeConstraintViolation) and truncates toward zero at six fractional digits
with round-down semantics: encoding the double 1.123456789 yields the double
1.123456, and encoding the string 1.12 yields the double 1.12. -/
theorem C8_outgoing_decimal_encoder :
    (∀ v : Value, OutgoingMessageDecimalEncoder_from_json v = .ok v)
    ∧ OutgoingMessageDecimalEncoder_to_json (.vFloat (roundDouble (mkRat 1123456789 1000000000)))
        = .ok (.vFloat (roundDouble (mkRat 1123456 1000000)))
    ∧ OutgoingMessageDecimalEncoder_to_json (.vStr "1.12")
        = .ok (.vFloat (roundDouble (mkRat 112 100)))
    ∧ OutgoingMessageDecimalEncoder_to_json (.vStr "abc")
        = .error (.ocpp ⟨.TypeConstraintViolation, .inputCannotBeCastToFloat, none⟩) :=
  ⟨fun _ => rfl, rfl, rfl, rfl⟩

/-- C9: the claim states that a Call whose envelope parses but whose action is
unknown fails with NotImplemented bound to the real request id (here the string
id).  The code never reaches action resolution: the envelope parse itself
raises TypeError when the Call constructor receives the init=False
messageTypeId field, for every registry contents and protocol version, so the
input [2, id, UnknownAction, and an empty object] dies with TypeError instead
of an OCPPException carrying NotImplemented. -/
theorem C9_unknown_action_unreachable :
    ∀ (impl16 impl20 : List (String × ActionDef)) (cran : Option String) (p : Protocol),
      parse impl16 impl20
        (.vList [.vInt 2, .vStr "id", .vStr "UnknownAction", .vObj []])
        cran p = .error (.py .typeError) :=
  fun _ _ _ _ => rfl

/-- C4 counterexample: the claim asserts that parse of any list whose first
element is not one of the message-type ids 2, 3, 4 fails with an OCPPException
bound to "-1" (GenericError under v16, MessageTypeNotSupported under v20).  At
the concrete input whose first element is the empty list, the membership test
against _MSGTYPEID_TO_DATACLASS hashes the unhashable key and raises an
uncaught TypeError instead, under both protocol versions: the result is not an
OCPPException for any error and request id. -/
theorem C4_envelope_error_codes_counterexample :
    parse [] [] (.vList [.vList []]) none .v16 = .error (.py .typeError)
    ∧ parse [] [] (.vList [.vList []]) none .v20 = .error (.py .typeError)
    ∧ ∀ (e : OCPPError) (rid : Value),
        parse [] [] (.vList [.vList []]) none .v16 ≠ .error (.exc e rid) :=
  ⟨rfl, rfl, fun _ _ h => PErr.noConfusion (Except.error.inj h)⟩

/-- C4 (amended): top-level parse of a non-list or empty-list input raises an
OCPPException bound to the sentinel request id "-1" whose code is GenericError
under protocol v16 and RpcFrameworkError under v20; parse of a list whose first
element is hashable (not itself a list or dict) and matches none of the known
message-type ids 2, 3, 4 (under Python dict-key equality) raises bound to "-1"
with GenericError under v16 and MessageTypeNotSupported under v20; a list whose
first element is itself a list or dict instead escapes with an uncaught
TypeError from hashing the dict key, bound to no request id. -/
theorem C4_envelope_error_codes :
    (∀ (impl16 impl20 : List (String × ActionDef)) (cran : Option String) (raw : Value),
      raw.isListV = false →
      parse impl16 impl20 raw cran .v16
          = .error (.exc ⟨.GenericError, .messageMustBeNonEmptyList, none⟩ (.vStr "-1"))
        ∧ parse impl16 impl20 raw cran .v20
          = .error (.exc ⟨.RpcFrameworkError, .messageMustBeNonEmptyList, none⟩ (.vStr "-1")))
    ∧ (∀ (impl16 impl20 : List (String × ActionDef)) (cran : Option String),
      parse impl16 impl20 (.vList []) cran .v16
          = .error (.exc ⟨.GenericError, .messageMustBeNonEmptyList, none⟩ (.vStr "-1"))
        ∧ parse impl16 impl20 (.vList []) cran .v20
          = .error (.exc ⟨.RpcFrameworkError, .messageMustBeNonEmptyList, none⟩ (.vStr "-1")))
    ∧ (∀ (impl16 impl20 : List (String × ActionDef)) (cran : Option String)
        (x : Value) (rest : List Value),
      pyHashable x = true →
      pyKeyEq x (.vInt 2) = false → pyKeyEq x (.vInt 3) = false → pyKeyEq x (.vInt 4) = false →
      parse impl16 impl20 (.vList (x :: rest)) cran .v16
          = .error (.exc ⟨.GenericError, .messageTypeNotSupported, none⟩ (.vStr "-1"))
        ∧ parse impl16 impl20 (.vList (x :: rest)) cran .v20
          = .error (.exc ⟨.MessageTypeNotSupported, .messageTypeNotSupported, none⟩ (.vStr "-1")))
    ∧ (∀ (impl16 impl20 : List (String × ActionDef)) (cran : Option String) (p : Protocol)
        (x : Value) (rest : List Value),
      pyHashable x = false →
      parse impl16 impl20 (.vList (x :: rest)) cran p = .error (.py .typeError)) := by
  refine ⟨?_, ?_, ?_, ?_⟩
  · intro impl16 impl20 cran raw h
    cases raw <;> first
      | exact ⟨rfl, rfl⟩
      | simp [Value.isListV] at h
  · intro impl16 impl20 cran
    exact ⟨rfl, rfl⟩
  · intro impl16 impl20 cran x rest hh h2 h3 h4
    have hm : msgTypeSchema x = .ok none := by
      simp [msgTypeSchema, hh, h2, h3, h4]
    constructor <;>
      simp [parse, hm, get_message_type_not_supported_error]
  · intro impl16 impl20 cran p x rest hh
    have hm : msgTypeSchema x = .error .typeError := by
      simp [msgTypeSchema, hh]
    simp [parse, hm]

/-- C4 witness: each error family at a concrete input, a dict under v16, the
list [666] under v20, and a list-headed list dying with TypeError. -/
theorem C4_envelope_error_codes_witness :
    parse [] [] (.vObj [("that_is_not", .vStr "ocpp-json")]) none .v16
        = .error (.exc ⟨.GenericError, .messageMustBeNonEmptyList, none⟩ (.vStr "-1"))
    ∧ parse [] [] (.vList [.vInt 666]) none .v20
        = .error (.exc ⟨.MessageTypeNotSupported, .messageTypeNotSupported, none⟩ (.vStr "-1"))
    ∧ parse [] [] (.vList [.vObj [("dont", .vStr "care")], .vStr "id"]) none .v16
        = .error (.py .typeError) :=
  ⟨(C4_envelope_error_codes.1 [] [] none (.vObj [("that_is_not", .vStr "ocpp-json")]) rfl).1,
   (C4_envelope_error_codes.2.2.1 [] [] none (.vInt 666) [] rfl rfl rfl rfl).2,
   C4_envelope_error_codes.2.2.2 [] [] none .v16 (.vObj [("dont", .vStr "care")]) [.vStr "id"] rfl⟩

/-- parseDataF with any remaining fuel returns the too-many-arguments
ProtocolError as soon as the wire object has more keys than the schema has
fields, before looking at any value. -/
theorem parseDataF_succ_too_many (fuel : Nat) (fs : List SField) (kvs : List (String × Value))
    (h : fs.length < kvs.length) :
    parseDataF (fuel + 1) fs (.vObj kvs)
      = .error (.ocpp ⟨.ProtocolError, .tooManyArguments, none⟩) := by
  simp only [parseDataF]
  rw [if_pos h]

/-- parseDataF with any remaining fuel returns the missing-required-fields
ProtocolError when the count guard passes but some required field's name is
absent from the wire object's keys. -/
theorem parseDataF_succ_missing_required (fuel : Nat) (fs : List SField)
    (kvs : List (String × Value)) (hlen : ¬ fs.length < kvs.length)
    (hall : (required_fields fs).all (fun f => (kvs.map Prod.fst).contains f.name) = false) :
    parseDataF (fuel + 1) fs (.vObj kvs)
      = .error (.ocpp ⟨.ProtocolError, .missingOrUndefinedRequiredFields, none⟩) := by
  simp only [parseDataF]
  rw [if_neg hlen]
  simp only [hall, Bool.not_false, Bool.true_or]
  rfl

/-- C6: for every schema the field-count guard of parse_data fires (with the
ProtocolError tagged as too-many-arguments) as soon as the wire object has more
keys than the schema has fields, whatever the contents of the values; and the
guard compares only counts, so a wire object with exactly as many keys as the
schema has fields but wrong key names passes it and fails only at the following
per-field-name lookup, with the distinct missing-required-fields ProtocolError
(when some required field's name is absent). -/
theorem C6_field_count_guard :
    (∀ (fs : List SField) (kvs : List (String × Value)), fs.length < kvs.length →
      parse_data fs (.vObj kvs) = .error (.ocpp ⟨.ProtocolError, .tooManyArguments, none⟩))
    ∧ (∀ (fs : List SField) (kvs : List (String × Value)),
      kvs.length = fs.length →
      fs.any (fun f => !_is_optional f && !((kvs.map Prod.fst).contains f.name)) = true →
      parse_data fs (.vObj kvs)
        = .error (.ocpp ⟨.ProtocolError, .missingOrUndefinedRequiredFields, none⟩)) := by
  constructor
  · intro fs kvs h
    exact parseDataF_succ_too_many 999 fs kvs h
  · intro fs kvs hlen hany
    obtain ⟨f, hmem, hp⟩ := List.any_eq_true.1 hany
    rw [Bool.and_eq_true] at hp
    obtain ⟨hopt, hcont⟩ := hp
    have hall : (required_fields fs).all (fun f => (kvs.map Prod.fst).contains f.name) = false := by
      refine List.all_eq_false.2 ⟨f, List.mem_filter.2 ⟨hmem, hopt⟩, ?_⟩
      simpa using hcont
    exact parseDataF_succ_missing_required 999 fs kvs (by omega) hall

/-- C6 witness: the count guard fires on the SimpleAction.req schema with one
extra key even though all required fields are present and valid, and a wire
object with the right number of keys but wrong key names passes the guard and
fails at the required-field lookup instead. -/
theorem C6_field_count_guard_witness :
    parse_data SimpleActionReqFields
      (.vObj [("value", .vStr "d"), ("validatedValue", .vStr "d"),
              ("enumValue", .vStr "Foo"), ("extra", .vStr "x")])
      = .error (.ocpp ⟨.ProtocolError, .tooManyArguments, none⟩)
    ∧ parse_data SimpleActionReqFields
      (.vObj [("a", .vNull), ("b", .vNull), ("c", .vNull)])
      = .error (.ocpp ⟨.ProtocolError, .missingOrUndefinedRequiredFields, none⟩) :=
  ⟨C6_field_count_guard.1 _ _ (by decide),
   C6_field_count_guard.2 _ _ (by decide) (by decide)⟩

/-- C7: the DateTime encoder decodes an offset-less ISO string as UTC (noon
2019-03-21 here); any string parsing to a nonzero-offset timezone is rejected
with PropertyConstraintViolation, as is a malformed string; encoding rejects a
non-datetime value with TypeConstraintViolation and any timestamp not tagged
UTC (naive or fixed-offset) with PropertyConstraintViolation; encoding the UTC
noon of 2019-03-21 yields exactly the string 2019-03-21T12:00:00+00:00. -/
theorem C7_datetime_encoder :
    DateTimeEncoder_from_json (.vStr "2019-03-21T12:00:00")
        = .ok (.vDateTime ⟨2019, 3, 21, 12, 0, 0, 0, some .utc⟩)
    ∧ (∀ (s : String) (dt : PyDateTime) (m : Int),
        pyIsoparse s = some dt → dt.tz = some (.offsetMin m) →
        DateTimeEncoder_from_json (.vStr s)
          = .error (.ocpp ⟨.PropertyConstraintViolation, .dateInputMustUseUTC, none⟩))
    ∧ DateTimeEncoder_from_json (.vStr "2019-03-21T12:00:00+01:00")
        = .error (.ocpp ⟨.PropertyConstraintViolation, .dateInputMustUseUTC, none⟩)
    ∧ DateTimeEncoder_from_json (.vStr "foobar")
        = .error (.ocpp ⟨.PropertyConstraintViolation, .dateInputNotFormattedAppropriately, none⟩)
    ∧ (∀ v : Value, v.isDateTimeV = false →
        DateTimeEncoder_to_json v
          = .error (.ocpp ⟨.TypeConstraintViolation, .inputNotADatetimeInstance, none⟩))
    ∧ (∀ dt : PyDateTime, dt.tz ≠ some .utc →
        DateTimeEncoder_to_json (.vDateTime dt)
          = .error (.ocpp ⟨.PropertyConstraintViolation, .dateInputMustUseUTC, none⟩))
    ∧ DateTimeEncoder_to_json (.vDateTime ⟨2019, 3, 21, 12, 0, 0, 0, some .utc⟩)
        = .ok (.vStr "2019-03-21T12:00:00+00:00") := by
  refine ⟨rfl, ?_, rfl, rfl, ?_, ?_, rfl⟩
  · intro s dt m h1 h2
    simp [DateTimeEncoder_from_json, h1, h2, dtTzname]
  · intro v h
    cases v <;> simp_all [Value.isDateTimeV, DateTimeEncoder_to_json]
  · intro dt h
    cases htz : dt.tz with
    | none => simp [DateTimeEncoder_to_json, htz]
    | some tzv =>
      cases tzv with
      | utc => exact absurd htz h
      | offsetMin m => simp [DateTimeEncoder_to_json, htz, dtTzname]

/-- C7 witness: the offset rejection at the concrete +01:00 string, the
non-datetime rejection at the integer 5, and the naive-timestamp rejection. -/
theorem C7_datetime_encoder_witness :
    DateTimeEncoder_from_json (.vStr "2019-03-21T12:00:00+01:00")
        = .error (.ocpp ⟨.PropertyConstraintViolation, .dateInputMustUseUTC, none⟩)
    ∧ DateTimeEncoder_to_json (.vInt 5)
        = .error (.ocpp ⟨.TypeConstraintViolation, .inputNotADatetimeInstance, none⟩)
    ∧ DateTimeEncoder_to_json (.vDateTime ⟨2019, 3, 21, 12, 0, 0, 0, none⟩)
        = .error (.ocpp ⟨.PropertyConstraintViolation, .dateInputMustUseUTC, none⟩) :=
  ⟨C7_datetime_encoder.2.1 "2019-03-21T12:00:00+01:00" ⟨2019, 3, 21, 12, 0, 0, 0, some (.offsetMin 60)⟩ 60 rfl rfl,
   C7_datetime_encoder.2.2.2.2.1 (.vInt 5) rfl,
   C7_datetime_encoder.2.2.2.2.2.1 ⟨2019, 3, 21, 12, 0, 0, 0, none⟩ (by simp)⟩

/-- C10: for every schema field declared with the wire type int, the strict
pre-validation isinstance check of parse_field accepts the Python booleans
(bool being a subclass of int), and parse_field returns them unchanged rather
than raising TypeConstraintViolation (every int field of this codebase has no
entry under the metadata key validator, so the default noop validator runs). -/
theorem C10_bool_accepted_as_int :
    (∀ b : Bool, pyIsInstance (.vBool b) .pInt = true)
    ∧ (∀ (f : SField) (b : Bool), f.ftype = .prim .pInt → f.fmeta.validator = none →
        parse_field f (.vBool b) = .ok (.vBool b)) := by
  constructor
  · intro b
    rfl
  · intro f b h1 h2
    simp [parse_field, h1, pyIsInstance, _run_validator, h2, runValidatorFn, withFieldDetail]

/-- C10 witness: the int-typed value field of tests.messages.SimpleAction.conf
accepts True unchanged. -/
theorem C10_bool_accepted_as_int_witness :
    parse_field { name := "value", ftype := .prim .pInt } (.vBool true) = .ok (.vBool true) :=
  C10_bool_accepted_as_int.2 { name := "value", ftype := .prim .pInt } true rfl rfl

end OcppCodec
